import Mathlib

/-!
Verification development for the CBOR-to-columnar pipeline of the
surrealengine accelerator (src/src/lib.rs).

The development shallowly embeds the two original pieces of logic:

* the Value Normalizer, `impl Serialize for SurrealValue` (lib.rs lines
  18-87), modelled as a pure function `serialize : Value -> NormValue`
  into an explicit grammar of serde data-model calls, and
* the Response Navigator, the shape-checking prefix of `cbor_to_arrow`
  (lib.rs lines 111-194), modelled as
  `extractRecords : Value -> Except NavError (Option ValueList)`.

The external collaborators (CBOR byte decoder, schema inferencer, column
builder, batch constructor) are outside the embedding: the input of the
embedded pipeline is an already-decoded value tree, and the output is the
record list that would be handed to schema inference (or the empty-batch
outcome, or a structured error).
-/

mutual

/--
Decoded CBOR value tree, mirroring `cbor4ii::core::Value` as consumed by
lib.rs.  The `float` payload is carried as the raw 64-bit pattern (a Nat):
the code never computes with floats, it only moves them, so the payload is
opaque here.  `bytes` carries the byte values.  The `simple` constructor
stands for the remaining primitive variants of the external decoder value
type, exactly the ones the normalizer catch-all arm (lib.rs line 84)
matches.  Arrays and maps use the mutually inductive list types so that
every function below is structurally recursive and kernel-reducible.
-/
inductive Value : Type where
  | null : Value
  | bool (b : Bool) : Value
  | integer (i : Int) : Value
  | float (bits : Nat) : Value
  | bytes (bs : List Nat) : Value
  | text (s : String) : Value
  | array (xs : ValueList) : Value
  | map (kvs : EntryList) : Value
  | tag (n : Nat) (v : Value) : Value
  | simple (n : Nat) : Value
deriving DecidableEq

/-- Ordered sequence of decoded values (`Vec<Value>`). -/
inductive ValueList : Type where
  | nil : ValueList
  | cons (head : Value) (tail : ValueList) : ValueList
deriving DecidableEq

/-- Ordered key-value pairs of a decoded map (`Vec<(Value, Value)>`), keys
not required to be text. -/
inductive EntryList : Type where
  | nil : EntryList
  | cons (key : Value) (val : Value) (tail : EntryList) : EntryList
deriving DecidableEq

end

mutual

/--
Normalized value: the sequence of serde serializer calls made by
`SurrealValue::serialize`, reified as a grammar.  `null` covers both
`serialize_none` (for `Value::Null`) and `serialize_unit` (for the
unrecognized-variant catch-all): in the serde data model consumed
downstream both render as the null/absent value.  `i64`, `u64` and `i128`
record which integer width the normalizer chose; the payloads keep the
mathematical value.
-/
inductive NormValue : Type where
  | null : NormValue
  | bool (b : Bool) : NormValue
  | i64 (i : Int) : NormValue
  | u64 (n : Nat) : NormValue
  | i128 (i : Int) : NormValue
  | f64 (bits : Nat) : NormValue
  | bytes (bs : List Nat) : NormValue
  | str (s : String) : NormValue
  | seq (xs : NormList) : NormValue
  | nmap (kvs : NormEntries) : NormValue
deriving DecidableEq

/-- Ordered sequence of normalized values. -/
inductive NormList : Type where
  | nil : NormList
  | cons (head : NormValue) (tail : NormList) : NormList
deriving DecidableEq

/-- Ordered text-key entries of a normalized map. -/
inductive NormEntries : Type where
  | nil : NormEntries
  | cons (key : String) (val : NormValue) (tail : NormEntries) : NormEntries
deriving DecidableEq

end

/--
Debug rendering of one Rust string, as produced by the derived `Debug`
of `String` inside `format!` with the debug specifier: the content wrapped
in double quotes, with backslash and double quote escaped.  Control
character escapes are not modelled; no input exercised here contains any,
and the spec flags debug renderings as implementation-defined and
non-normative.
-/
def rustStrDebug (s : String) : String :=
  "\"" ++ String.join (s.toList.map (fun c =>
    if c = '\\' then "\\\\"
    else if c = '"' then "\\\"" else String.singleton c)) ++ "\""

/-- Debug rendering of a byte vector, as the derived `Debug` of `Vec<u8>`
prints it: decimal values, comma-space separated, in square brackets. -/
def natListDebug : List Nat → String
  | [] => ""
  | [n] => toString n
  | n :: rest => toString n ++ ", " ++ natListDebug rest

mutual

/--
Debug rendering of a decoded value, modelling `format!` with the debug
specifier on `cbor4ii::core::Value`, whose `Debug` is derived: variant
name, then the payload rendered recursively (vectors in square brackets,
pairs in parentheses, integers in decimal, strings quoted).  The float
case renders the raw bit pattern: its exact text never matters to any
claim, and the spec marks such renderings non-normative.
-/
def debugRender : Value → String
  | .null => "Null"
  | .bool b => "Bool(" ++ (if b then "true" else "false") ++ ")"
  | .integer i => "Integer(" ++ toString i ++ ")"
  | .float bits => "Float(" ++ toString bits ++ ")"
  | .bytes bs => "Bytes([" ++ natListDebug bs ++ "])"
  | .text s => "Text(" ++ rustStrDebug s ++ ")"
  | .array xs => "Array([" ++ debugRenderList xs ++ "])"
  | .map kvs => "Map([" ++ debugRenderEntries kvs ++ "])"
  | .tag n v => "Tag(" ++ toString n ++ ", " ++ debugRender v ++ ")"
  | .simple n => "Simple(" ++ toString n ++ ")"

/-- Debug rendering of the elements of a decoded array, comma-space
separated. -/
def debugRenderList : ValueList → String
  | .nil => ""
  | .cons x .nil => debugRender x
  | .cons x xs => debugRender x ++ ", " ++ debugRenderList xs

/-- Debug rendering of the entries of a decoded map, each a parenthesized
pair, comma-space separated. -/
def debugRenderEntries : EntryList → String
  | .nil => ""
  | .cons k v .nil => "(" ++ debugRender k ++ ", " ++ debugRender v ++ ")"
  | .cons k v rest =>
      "(" ++ debugRender k ++ ", " ++ debugRender v ++ ")" ++ ", " ++
        debugRenderEntries rest

end

/-- Map-key stringification of lib.rs lines 54-57: a text key is used
verbatim, any other key is rendered via the debug formatter. -/
def keyStr (k : Value) : String :=
  match k with
  | .text s => s
  | _ => debugRender k

mutual

/--
The Value Normalizer: `impl Serialize for SurrealValue` (lib.rs lines
18-87) as a pure function.  Integers prefer the narrowest lossless
representation (signed 64-bit, then unsigned 64-bit, then 128-bit,
mirroring the two `try_from` attempts).  Tag 8 over a 2-element array is
the record identifier: the table coerces to text only if already text
(else empty text), the id coerces from text or integer (decimal
formatted) else empty text, producing one text value "table:id".  Any
other tagged value drops the tag and normalizes the inner value.  The
catch-all variant normalizes to the null value (`serialize_unit`).
-/
def serialize : Value → NormValue
  | .null => .null
  | .bool b => .bool b
  | .integer i =>
      if -(2 ^ 63) ≤ i ∧ i < 2 ^ 63 then .i64 i
      else if 0 ≤ i ∧ i < 2 ^ 64 then .u64 i.toNat
      else .i128 i
  | .float bits => .f64 bits
  | .bytes bs => .bytes bs
  | .text s => .str s
  | .array xs => .seq (serializeList xs)
  | .map kvs => .nmap (serializeEntries kvs)
  | .tag n v =>
      if n = 8 then
        match v with
        | .array (.cons a (.cons b .nil)) =>
            let table := match a with
              | .text s => s
              | _ => ""
            match b with
            | .text s => .str (table ++ ":" ++ s)
            | .integer i => .str (table ++ ":" ++ toString i)
            | _ => .str (table ++ ":" ++ "")
        | _ => serialize v
      else serialize v
  | .simple _ => .null

/-- Element-wise normalization of a decoded array (lib.rs lines 40-47). -/
def serializeList : ValueList → NormList
  | .nil => .nil
  | .cons x xs => .cons (serialize x) (serializeList xs)

/-- Entry-wise normalization of a decoded map (lib.rs lines 48-61): keys
go through `keyStr`, values recurse. -/
def serializeEntries : EntryList → NormEntries
  | .nil => .nil
  | .cons k v rest => .cons (keyStr k) (serialize v) (serializeEntries rest)

end

/--
Structured error taxonomy of the Navigator.  The Rust code raises these as
Python ValueError messages built with the format macro; each constructor
records the data interpolated into the corresponding message:

* `malformedEnvelope` — "CBOR Root is not a Map" (lib.rs line 139);
* `serverError code message` — map-shaped top-level error, message
  "SurrealDB Error (code): message" (lib.rs lines 114-126);
* `serverErrorRaw rendered` — non-map top-level error value, message
  "SurrealDB Error: rendered" (lib.rs line 128);
* `missingResultArray` / `resultNotArray` — lib.rs lines 144-145;
* `statementNotMap` — lib.rs line 157;
* `statementError status detail` — lib.rs line 172;
* `innerResultNotArray` / `missingInnerResult keys` — lib.rs lines
  183-188, the latter carrying the debug-rendered key set.
-/
inductive NavError : Type where
  | malformedEnvelope : NavError
  | serverError (code message : String) : NavError
  | serverErrorRaw (rendered : String) : NavError
  | missingResultArray : NavError
  | resultNotArray : NavError
  | statementNotMap : NavError
  | statementError (status detail : String) : NavError
  | innerResultNotArray : NavError
  | missingInnerResult (keys : List String) : NavError
deriving DecidableEq

/-- Key predicate of the Navigator lookups: the Rust matches macro
`matches!(k, Value::Text(s) if s == key)`. -/
def keyIs (key : String) (k : Value) : Bool :=
  match k with
  | .text s => s = key
  | _ => false

/-- Combined key predicate of the detail lookup (lib.rs line 169): the
entry key is the text "detail" or the text "message". -/
def detailKey (k : Value) : Bool :=
  keyIs "detail" k || keyIs "message" k

/-- First entry whose key satisfies the predicate, returning its value:
the `.iter().find(...).map(|(_, v)| v)` idiom every Navigator lookup
uses. -/
def findEntry (p : Value → Bool) : EntryList → Option Value
  | .nil => none
  | .cons k v rest => if p k then some v else findEntry p rest

/-- Lookup of a text key in a decoded map, as done for "error", "result",
"status" and "code"/"message" throughout `cbor_to_arrow`. -/
def mapFind (kvs : EntryList) (key : String) : Option Value :=
  findEntry (keyIs key) kvs

/-- Lookup of the first "detail" or "message" entry of a statement map
(lib.rs lines 168-169). -/
def detailFind (kvs : EntryList) : Option Value :=
  findEntry detailKey kvs

/-- Detail string attached to a statement error (lib.rs lines 168-171):
the debug rendering of the first "detail" or "message" value, with the
fallback text when neither key is present. -/
def statementDetail (fm : EntryList) : String :=
  match detailFind fm with
  | some v => debugRender v
  | none => "Unknown error"

/-- Debug-rendered key set of a map, as collected for the
`missingInnerResult` diagnostic (lib.rs line 187). -/
def keysOf : EntryList → List String
  | .nil => []
  | .cons k _ rest => debugRender k :: keysOf rest

/--
Classification of a top-level "error" value (lib.rs lines 112-130).  A
map-shaped error value yields `serverError` with the message taken from
its "message" entry (verbatim when text, debug-rendered otherwise,
falling back to the debug rendering of the whole error value) and the
code taken as the debug rendering of its "code" entry (falling back to
"?").  A non-map error value yields `serverErrorRaw` with the debug
rendering of the value.
-/
def topLevelError (v : Value) : NavError :=
  match v with
  | .map errMap =>
      let message :=
        match mapFind errMap "message" with
        | some (.text s) => s
        | some w => debugRender w
        | none => debugRender v
      let code :=
        match mapFind errMap "code" with
        | some w => debugRender w
        | none => "?"
      .serverError code message
  | _ => .serverErrorRaw (debugRender v)

/--
Inner-result extraction from the first statement map (lib.rs lines
177-194): the "result" entry must be an array; an empty array is the
empty-batch outcome (`none`), a nonempty one yields the record list.  A
missing entry reports the available keys; a non-array entry is a shape
error.
-/
def extractInner (fm : EntryList) : Except NavError (Option ValueList) :=
  match mapFind fm "result" with
  | some (.array records) =>
      match records with
      | .nil => .ok none
      | .cons r rest => .ok (some (.cons r rest))
  | some _ => .error .innerResultNotArray
  | none => .error (.missingInnerResult (keysOf fm))

/--
The Response Navigator: the shape-checking prefix of `cbor_to_arrow`
(lib.rs lines 111-194) on an already-decoded root value.  `.ok none`
models the early `py.None()` returns (empty/absent batch, reached before
any schema inference); `.ok (some records)` is the nonempty record list
handed to normalization and the external columnar stages.  Note the
status check (lib.rs line 165) fires only when the "status" value is
text: a non-text status value falls through to the inner-result
extraction.
-/
def extractRecords (root : Value) : Except NavError (Option ValueList) :=
  match root with
  | .map m =>
      match mapFind m "error" with
      | some ev => .error (topLevelError ev)
      | none =>
          match mapFind m "result" with
          | some (.array responses) =>
              match responses with
              | .nil => .ok none
              | .cons first _ =>
                  match first with
                  | .map fm =>
                      match mapFind fm "status" with
                      | some (.text status) =>
                          if status = "OK" then extractInner fm
                          else .error (.statementError status (statementDetail fm))
                      | _ => extractInner fm
                  | _ => .error .statementNotMap
          | some _ => .error .resultNotArray
          | none => .error .missingResultArray
  | _ => .error .malformedEnvelope

/-- The embedded pipeline through normalization: navigate, then normalize
each extracted record (lib.rs lines 197-199); the external inference and
building stages consume the resulting list. -/
def cbor_to_arrow (root : Value) : Except NavError (Option NormList) :=
  match extractRecords root with
  | .error e => .error e
  | .ok none => .ok none
  | .ok (some records) => .ok (some (serializeList records))

/-- Map test on decoded values. -/
def Value.isMap : Value → Bool
  | .map _ => true
  | _ => false

/-- Shape test for the record-identifier special case: the tagged inner
value is an array of exactly two elements. -/
def isTwoElemArray : Value → Bool
  | .array (.cons _ (.cons _ .nil)) => true
  | _ => false

/-- Test whether a Navigator outcome is the per-statement error. -/
def isStatementError (r : Except NavError (Option ValueList)) : Bool :=
  match r with
  | .error (.statementError _ _) => true
  | _ => false

/-- Test whether a Navigator error is one of the two server-reported
top-level error shapes. -/
def NavError.isServerError : NavError → Bool
  | .serverError _ _ => true
  | .serverErrorRaw _ => true
  | _ => false

/-- Concatenation of decoded-map entry lists, used to state the
duplicate-key lookup claims. -/
def EntryList.append : EntryList → EntryList → EntryList
  | .nil, es => es
  | .cons k v rest, es => .cons k v (EntryList.append rest es)

/-- None of the keys of the entry list satisfies the predicate. -/
def noKeyMatch (p : Value → Bool) : EntryList → Bool
  | .nil => true
  | .cons k _ rest => !p k && noKeyMatch p rest

/-- Text test on decoded map keys. -/
def isTextKey : Value → Bool
  | .text _ => true
  | _ => false

mutual

/--
Membership in the normalized grammar, read back on decoded values: null,
bool, integers representable in one of the two 64-bit forms the
normalizer prefers, float, bytes, text, arrays of such values and maps
with text keys and such values; no tags and no unrecognized variants.
-/
def normalShaped : Value → Bool
  | .null => true
  | .bool _ => true
  | .integer i => decide (-(2 ^ 63) ≤ i) && decide (i < 2 ^ 64)
  | .float _ => true
  | .bytes _ => true
  | .text _ => true
  | .array xs => normalShapedList xs
  | .map kvs => normalShapedEntries kvs
  | .tag _ _ => false
  | .simple _ => false

/-- Every element of the list is in the normalized grammar. -/
def normalShapedList : ValueList → Bool
  | .nil => true
  | .cons x xs => normalShaped x && normalShapedList xs

/-- Every entry has a text key and a value in the normalized grammar. -/
def normalShapedEntries : EntryList → Bool
  | .nil => true
  | .cons k v rest => isTextKey k && normalShaped v && normalShapedEntries rest

end

mutual

/-- Reading of a normalized value back as a decoded value: each
normalized form denotes the decoded value it represents (all three
integer widths denote the same mathematical integer). -/
def reify : NormValue → Value
  | .null => .null
  | .bool b => .bool b
  | .i64 i => .integer i
  | .u64 n => .integer n
  | .i128 i => .integer i
  | .f64 bits => .float bits
  | .bytes bs => .bytes bs
  | .str s => .text s
  | .seq xs => .array (reifyList xs)
  | .nmap kvs => .map (reifyEntries kvs)

/-- Element-wise reading back of a normalized sequence. -/
def reifyList : NormList → ValueList
  | .nil => .nil
  | .cons x xs => .cons (reify x) (reifyList xs)

/-- Entry-wise reading back of a normalized map: keys become text
values. -/
def reifyEntries : NormEntries → EntryList
  | .nil => .nil
  | .cons k v rest => .cons (.text k) (reify v) (reifyEntries rest)

end

/-- Envelope whose first statement map carries a non-text status (the
integer 5) together with a nonempty inner result. -/
def nontextStatusEnvelope : EntryList :=
  .cons (.text "result")
    (.array (.cons (.map
      (.cons (.text "status") (.integer 5)
        (.cons (.text "result")
          (.array (.cons (.map (.cons (.text "a") (.integer 1) .nil)) .nil)) .nil))) .nil))
    .nil

/-- Error value of the C4 witness envelope. -/
def demoErrVal : Value :=
  .map (.cons (.text "code") (.integer 1) (.cons (.text "message") (.text "boom") .nil))

/-- Envelope of the C4 witness: a well-formed empty "result" next to an
"error" entry. -/
def demoTopErr : EntryList :=
  .cons (.text "result") (.array .nil) (.cons (.text "error") demoErrVal .nil)

/-- Envelope whose single statement carries status "ERR" and detail
"syntax error". -/
def errStatementEnvelope : EntryList :=
  .cons (.text "result")
    (.array (.cons (.map
      (.cons (.text "status") (.text "ERR")
        (.cons (.text "detail") (.text "syntax error") .nil))) .nil))
    .nil

/-- Normalization never changes the mathematical value of an integer,
whichever width it selects. -/
theorem reify_serialize_integer (i : Int) : reify (serialize (.integer i)) = .integer i := by
  simp only [serialize]
  split
  · rfl
  · split
    · next h1 h2 => simp [reify, Int.toNat_of_nonneg h2.1]
    · rfl

mutual

/-- Normalization is the identity on values of the normalized grammar,
read back through `reify`. -/
theorem reify_serialize_aux : (v : Value) → normalShaped v = true → reify (serialize v) = v
  | .null, _ => rfl
  | .bool _, _ => rfl
  | .integer i, _ => reify_serialize_integer i
  | .float _, _ => rfl
  | .bytes _, _ => rfl
  | .text _, _ => rfl
  | .array xs, h => congrArg Value.array (reifyList_serializeList_aux xs h)
  | .map kvs, h => congrArg Value.map (reifyEntries_serializeEntries_aux kvs h)
  | .tag _ _, h => by simp [normalShaped] at h
  | .simple _, h => by simp [normalShaped] at h

/-- List version of `reify_serialize_aux`. -/
theorem reifyList_serializeList_aux :
    (xs : ValueList) → normalShapedList xs = true → reifyList (serializeList xs) = xs
  | .nil, _ => rfl
  | .cons x xs, h => by
      simp only [normalShapedList, Bool.and_eq_true] at h
      show ValueList.cons (reify (serialize x)) (reifyList (serializeList xs)) = .cons x xs
      rw [reify_serialize_aux x h.1, reifyList_serializeList_aux xs h.2]

/-- Entry version of `reify_serialize_aux`. -/
theorem reifyEntries_serializeEntries_aux :
    (es : EntryList) → normalShapedEntries es = true → reifyEntries (serializeEntries es) = es
  | .nil, _ => rfl
  | .cons k v rest, h => by
      simp only [normalShapedEntries, Bool.and_eq_true] at h
      obtain ⟨⟨hk, hv⟩, hrest⟩ := h
      cases k
      case text s =>
        show EntryList.cons (.text (keyStr (.text s))) (reify (serialize v))
            (reifyEntries (serializeEntries rest)) = .cons (.text s) v rest
        rw [reify_serialize_aux v hv, reifyEntries_serializeEntries_aux rest hrest]
        rfl
      all_goals simp [isTextKey] at hk

end

/-- Claim C2: a tag-8 value wrapping a 2-element array of a text table
and a text or integer id normalizes to the single text value "table:id"
(integer ids decimal-formatted); a tag-8 value whose inner value is not a
2-element array drops the tag and normalizes the inner value on its own,
producing no identifier text. -/
theorem record_id_tag8_normalization :
    (∀ table id : String,
        serialize (.tag 8 (.array (.cons (.text table) (.cons (.text id) .nil))))
          = .str (table ++ ":" ++ id))
    ∧ (∀ (table : String) (i : Int),
        serialize (.tag 8 (.array (.cons (.text table) (.cons (.integer i) .nil))))
          = .str (table ++ ":" ++ toString i))
    ∧ (∀ v : Value, isTwoElemArray v = false → serialize (.tag 8 v) = serialize v) := by
  refine ⟨fun _ _ => rfl, fun _ _ => rfl, ?_⟩
  intro v hv
  cases v
  case array xs =>
    cases xs with
    | nil => rfl
    | cons a rest =>
      cases rest with
      | nil => rfl
      | cons b rest2 =>
        cases rest2 with
        | nil => simp [isTwoElemArray] at hv
        | cons c r => rfl
  all_goals rfl

/-- Witness for C2 at the spec examples and at a malformed (one-element)
identifier. -/
theorem record_id_tag8_normalization_witness :
    serialize (.tag 8 (.array (.cons (.text "person") (.cons (.text "17") .nil))))
        = .str "person:17"
    ∧ serialize (.tag 8 (.array (.cons (.text "person") (.cons (.integer 17) .nil))))
        = .str "person:17"
    ∧ (isTwoElemArray (.array (.cons (.text "person") .nil)) = false
        ∧ serialize (.tag 8 (.array (.cons (.text "person") .nil)))
            = serialize (.array (.cons (.text "person") .nil))) :=
  ⟨record_id_tag8_normalization.1 "person" "17",
    record_id_tag8_normalization.2.1 "person" 17,
    rfl,
    record_id_tag8_normalization.2.2 (.array (.cons (.text "person") .nil)) rfl⟩

/-- Claim C3: integer normalization selects the narrowest lossless
representation, trying signed 64-bit first, then unsigned 64-bit, then
128-bit; in particular the value one past the signed 64-bit maximum
selects the unsigned 64-bit form, and every value below the signed
64-bit minimum selects the 128-bit form. -/
theorem integer_width_selection :
    (∀ i : Int, -(2 ^ 63) ≤ i → i < 2 ^ 63 → serialize (.integer i) = .i64 i)
    ∧ (∀ i : Int, 2 ^ 63 ≤ i → i < 2 ^ 64 → serialize (.integer i) = .u64 i.toNat)
    ∧ (∀ i : Int, i < -(2 ^ 63) → serialize (.integer i) = .i128 i)
    ∧ (∀ i : Int, 2 ^ 64 ≤ i → serialize (.integer i) = .i128 i)
    ∧ serialize (.integer (2 ^ 63)) = .u64 (2 ^ 63) := by
  refine ⟨?_, ?_, ?_, ?_, by decide⟩
  · intro i h1 h2
    simp only [serialize]
    rw [if_pos ⟨h1, h2⟩]
  · intro i h1 h2
    simp only [serialize]
    rw [if_neg (by omega), if_pos ⟨by omega, h2⟩]
  · intro i h
    simp only [serialize]
    rw [if_neg (by omega), if_neg (by omega)]
  · intro i h
    simp only [serialize]
    rw [if_neg (by omega), if_neg (by omega)]

/-- Witness for C3 at a small signed value, at the value one past the
signed 64-bit maximum, at one below the signed 64-bit minimum, and at
the unsigned 64-bit overflow point. -/
theorem integer_width_selection_witness :
    (-(2 ^ 63) ≤ (5 : Int) ∧ (5 : Int) < 2 ^ 63
        ∧ serialize (.integer 5) = .i64 5)
    ∧ ((2 : Int) ^ 63 ≤ 2 ^ 63 ∧ (2 : Int) ^ 63 < 2 ^ 64
        ∧ serialize (.integer (2 ^ 63)) = .u64 ((2 ^ 63 : Int)).toNat)
    ∧ ((-(2 ^ 63) - 1 : Int) < -(2 ^ 63)
        ∧ serialize (.integer (-(2 ^ 63) - 1)) = .i128 (-(2 ^ 63) - 1))
    ∧ ((2 ^ 64 : Int) ≤ 2 ^ 64
        ∧ serialize (.integer (2 ^ 64)) = .i128 (2 ^ 64)) :=
  ⟨⟨by decide, by decide, integer_width_selection.1 5 (by decide) (by decide)⟩,
    ⟨by decide, by decide, integer_width_selection.2.1 (2 ^ 63) (by decide) (by decide)⟩,
    ⟨by decide, integer_width_selection.2.2.1 (-(2 ^ 63) - 1) (by decide)⟩,
    ⟨by decide, integer_width_selection.2.2.2.1 (2 ^ 64) (by decide)⟩⟩

/-- Claim C5: every variant outside the recognized set (modelled by the
`simple` constructor, the catch-all arm of the normalizer) normalizes to
the explicit null value; normalization is total, so it never fails or
panics. -/
theorem unrecognized_variant_serializes_null : ∀ n : Nat, serialize (.simple n) = .null :=
  fun _ => rfl

/-- Claim C9: normalization is a fixed point on inputs already in the
normalized grammar (no tags, no unrecognized variants, text map keys,
integers representable in 64 bits): reading the normalized result back
as a decoded value gives back the input unchanged. -/
theorem serialize_fixed_point_on_normal_shaped (v : Value) (h : normalShaped v = true) :
    reify (serialize v) = v :=
  reify_serialize_aux v h

/-- Witness for C9 at a record-shaped map with a nested array. -/
theorem serialize_fixed_point_witness :
    normalShaped (.map (.cons (.text "a") (.integer 1)
        (.cons (.text "b") (.array (.cons (.text "x") .nil)) .nil))) = true
    ∧ reify (serialize (.map (.cons (.text "a") (.integer 1)
        (.cons (.text "b") (.array (.cons (.text "x") .nil)) .nil))))
      = .map (.cons (.text "a") (.integer 1)
        (.cons (.text "b") (.array (.cons (.text "x") .nil)) .nil)) :=
  ⟨by decide, serialize_fixed_point_on_normal_shaped _ (by decide)⟩

/-- Counterexample to C1 as stated: with a "status" value that is an
integer (not text), the Navigator raises no statement error and proceeds
all the way to returning the rows. -/
theorem nontext_status_proceeds_counterexample :
    isStatementError (extractRecords (.map nontextStatusEnvelope)) = false
    ∧ extractRecords (.map nontextStatusEnvelope)
        = .ok (some (.cons (.map (.cons (.text "a") (.integer 1) .nil)) .nil)) :=
  ⟨rfl, rfl⟩

/-- Claim C1 (amended): in an envelope without a top-level "error" key,
when the first statement map's "status" lookup yields a text value other
than "OK", navigation fails with the statement error carrying that
status and the extracted detail, and never reaches the inner-result
extraction; a non-text status value is not checked and navigation
proceeds. -/
theorem text_status_not_ok_statement_error (m fm : EntryList) (rest : ValueList)
    (status : String)
    (hne : mapFind m "error" = none)
    (hres : mapFind m "result" = some (.array (.cons (.map fm) rest)))
    (hst : mapFind fm "status" = some (.text status))
    (hok : status ≠ "OK") :
    extractRecords (.map m) = .error (.statementError status (statementDetail fm)) := by
  simp only [extractRecords, hne, hres, hst]
  rw [if_neg hok]

/-- Witness for the amended C1 at a concrete envelope with status "ERR". -/
theorem text_status_not_ok_statement_error_witness :
    mapFind (EntryList.cons (.text "result")
        (.array (.cons (.map (.cons (.text "status") (.text "ERR") .nil)) .nil)) .nil)
        "error" = none
    ∧ extractRecords (.map (.cons (.text "result")
        (.array (.cons (.map (.cons (.text "status") (.text "ERR") .nil)) .nil)) .nil))
      = .error (.statementError "ERR"
          (statementDetail (.cons (.text "status") (.text "ERR") .nil))) :=
  ⟨rfl,
    text_status_not_ok_statement_error
      (.cons (.text "result")
        (.array (.cons (.map (.cons (.text "status") (.text "ERR") .nil)) .nil)) .nil)
      (.cons (.text "status") (.text "ERR") .nil) .nil "ERR"
      rfl rfl rfl (by decide)⟩

/-- Claim C4: a top-level "error" entry always wins: whenever the root
map contains an "error" entry, navigation fails with the classified
server-reported error, whatever any "result" entry holds (the
conclusion does not depend on it), so the result rows are never
inspected or returned. -/
theorem top_level_error_wins (m : EntryList) (ev rv : Value)
    (he : mapFind m "error" = some ev)
    (hr : mapFind m "result" = some rv) :
    extractRecords (.map m) = .error (topLevelError ev)
    ∧ (topLevelError ev).isServerError = true := by
  constructor
  · simp only [extractRecords, he]
  · cases ev <;> rfl

/-- Witness for C4 at a concrete envelope holding both keys. -/
theorem top_level_error_wins_witness :
    mapFind demoTopErr "error" = some demoErrVal
    ∧ mapFind demoTopErr "result" = some (.array .nil)
    ∧ extractRecords (.map demoTopErr) = .error (topLevelError demoErrVal)
    ∧ (topLevelError demoErrVal).isServerError = true :=
  ⟨rfl, rfl,
    (top_level_error_wins demoTopErr demoErrVal (.array .nil) rfl rfl).1,
    (top_level_error_wins demoTopErr demoErrVal (.array .nil) rfl rfl).2⟩

/-- Counterexample to C6 as stated: the statement error carries the
status verbatim, but the detail is the debug rendering of the detail
value, which differs from the verbatim text "syntax error". -/
theorem statement_error_detail_rendered_counterexample :
    extractRecords (.map errStatementEnvelope)
        = .error (.statementError "ERR" "Text(\"syntax error\")")
    ∧ ("Text(\"syntax error\")" : String) ≠ "syntax error" :=
  ⟨rfl, by decide⟩

/-- Claim C6 (amended): for the statement map with status "ERR" and
detail "syntax error", navigation fails with the statement error whose
carried status is exactly "ERR" (verbatim) and whose carried detail is
the debug rendering of the detail value, not the bare text. -/
theorem statement_error_status_verbatim_detail_debug :
    extractRecords (.map errStatementEnvelope)
      = .error (.statementError "ERR" (debugRender (.text "syntax error"))) := rfl

/-- Claim C7: an empty top-level result array, and a first statement
with status "OK" and an empty inner result array, both make the pipeline
return the empty/absent batch outcome with no error; schema inference is
reached only on the nonempty-record outcome, so it is not invoked. -/
theorem empty_results_give_empty_batch :
    (∀ m : EntryList,
        mapFind m "error" = none →
        mapFind m "result" = some (.array .nil) →
        cbor_to_arrow (.map m) = .ok none)
    ∧ (∀ (m fm : EntryList) (rest : ValueList),
        mapFind m "error" = none →
        mapFind m "result" = some (.array (.cons (.map fm) rest)) →
        mapFind fm "status" = some (.text "OK") →
        mapFind fm "result" = some (.array .nil) →
        cbor_to_arrow (.map m) = .ok none) := by
  constructor
  · intro m h1 h2
    simp only [cbor_to_arrow, extractRecords, h1, h2]
  · intro m fm rest h1 h2 h3 h4
    simp [cbor_to_arrow, extractRecords, h1, h2, h3, extractInner, h4]

/-- Witness for C7 at the two concrete spec examples. -/
theorem empty_results_give_empty_batch_witness :
    cbor_to_arrow (.map (.cons (.text "result") (.array .nil) .nil)) = .ok none
    ∧ cbor_to_arrow (.map (.cons (.text "result")
        (.array (.cons (.map (.cons (.text "status") (.text "OK")
          (.cons (.text "result") (.array .nil) .nil))) .nil)) .nil)) = .ok none :=
  ⟨empty_results_give_empty_batch.1 (.cons (.text "result") (.array .nil) .nil) rfl rfl,
    empty_results_give_empty_batch.2
      (.cons (.text "result")
        (.array (.cons (.map (.cons (.text "status") (.text "OK")
          (.cons (.text "result") (.array .nil) .nil))) .nil)) .nil)
      (.cons (.text "status") (.text "OK")
        (.cons (.text "result") (.array .nil) .nil))
      .nil rfl rfl rfl rfl⟩

/-- Claim C8: for every decoded value whose root is not a map, the
Navigator returns the malformed-envelope error; `extractRecords` is a
total function, so no input panics. -/
theorem non_map_root_malformed_envelope (v : Value) (h : v.isMap = false) :
    extractRecords v = .error .malformedEnvelope := by
  cases v
  case map kvs => simp [Value.isMap] at h
  all_goals rfl

/-- Witness for C8 at a text root. -/
theorem non_map_root_malformed_envelope_witness :
    Value.isMap (.text "x") = false
    ∧ extractRecords (.text "x") = .error .malformedEnvelope :=
  ⟨rfl, non_map_root_malformed_envelope (.text "x") rfl⟩

/-- First matching entry wins for every find-style lookup over an entry
list: with no match in the prefix, the lookup returns the value of the
first matching entry, ignoring everything after it. -/
theorem findEntry_append_first (p : Value → Bool) :
    (pre : EntryList) → (post : EntryList) → (k v : Value) →
    noKeyMatch p pre = true → p k = true →
    findEntry p (EntryList.append pre (.cons k v post)) = some v
  | .nil, post, k, v, _, hk => by
      simp only [EntryList.append, findEntry]
      rw [if_pos hk]
  | .cons k2 v2 rest, post, k, v, hpre, hk => by
      simp only [noKeyMatch, Bool.and_eq_true, Bool.not_eq_true'] at hpre
      simp only [EntryList.append, findEntry]
      rw [if_neg (by simp [hpre.1]), findEntry_append_first p rest post k v hpre.2 hk]

/-- Claim C10: every Navigator lookup takes the first entry whose key
matches, ignoring later duplicates, and the detail lookup takes
whichever of "detail" or "message" occurs first regardless of name; in
particular a duplicated top-level "error" key reports the first error
value. -/
theorem duplicate_key_first_wins :
    (∀ (key : String) (pre post : EntryList) (k v : Value),
        noKeyMatch (keyIs key) pre = true → keyIs key k = true →
        mapFind (EntryList.append pre (.cons k v post)) key = some v)
    ∧ (∀ (pre post : EntryList) (k v : Value),
        noKeyMatch detailKey pre = true → detailKey k = true →
        detailFind (EntryList.append pre (.cons k v post)) = some v)
    ∧ extractRecords (.map (.cons (.text "error") (.text "a")
        (.cons (.text "error") (.text "b") .nil)))
        = .error (.serverErrorRaw (debugRender (.text "a"))) :=
  ⟨fun key pre post k v hpre hk => findEntry_append_first (keyIs key) pre post k v hpre hk,
    fun pre post k v hpre hk => findEntry_append_first detailKey pre post k v hpre hk,
    rfl⟩

/-- Witness for C10: a duplicated "error" key after one non-matching
entry, and a "message" entry occurring before a "detail" entry. -/
theorem duplicate_key_first_wins_witness :
    (noKeyMatch (keyIs "error") (.cons (.text "x") .null .nil) = true
      ∧ keyIs "error" (.text "error") = true
      ∧ mapFind (EntryList.append (.cons (.text "x") .null .nil)
          (.cons (.text "error") (.text "first")
            (.cons (.text "error") (.text "second") .nil))) "error"
          = some (.text "first"))
    ∧ (noKeyMatch detailKey .nil = true
      ∧ detailKey (.text "message") = true
      ∧ detailFind (EntryList.append .nil
          (.cons (.text "message") (.text "m")
            (.cons (.text "detail") (.text "d") .nil)))
          = some (.text "m")) :=
  ⟨⟨rfl, rfl,
      duplicate_key_first_wins.1 "error" (.cons (.text "x") .null .nil)
        (.cons (.text "error") (.text "second") .nil)
        (.text "error") (.text "first") rfl rfl⟩,
    ⟨rfl, rfl,
      duplicate_key_first_wins.2.1 .nil
        (.cons (.text "detail") (.text "d") .nil)
        (.text "message") (.text "m") rfl rfl⟩⟩
